import Mathlib

/-!
Verification of the cross-thread R-UDF dispatch subsystem of RBCFTools
(`inst/duckdb_r_udf_extension/r_chan.c` and `inst/duckdb_r_udf_extension/r_udf.c`).

The C code is shallowly embedded:
* the channel of `r_chan.c` becomes a functional state `r_chan_t` (the
  linked queue `head`/`tail`/`len`, which the C keeps consistent under the
  queue mutex, is modelled as a single `List`; the wakeup pipe as a byte
  counter);
* the global dispatch state of `r_udf.c` (`g_async_initialized`,
  `g_request_pipe`, `g_in_r_call`) becomes `DispatchState`;
* the embedded R interpreter (parse / eval / `R_ToplevelExec`) is external
  to the repository, so its outcome is a parameter (`EvalOutcome`,
  `StrEvalOutcome`, `Toplevel`); everything downstream of that outcome —
  the result conversion, the guards, the routing — is translated from the
  source;
* C doubles are modelled as `Rat` plus explicit NA/NaN markers
  (`RRealElem`); the only double operations the translated code performs
  are the `ISNA`/`ISNAN` tests, pass-through, and the `(int32_t)` cast
  (truncation toward zero, `cDoubleToInt32`).
-/

-- =========================================================================
-- Channel (r_chan.c)
-- =========================================================================

/-- Channel state from `r_chan.c`: the FIFO queue (C `head`/`tail`/`len`
linked list, always mutated together under `mtx`), the `is_closed` flag and
the number of doorbell bytes pending in the wakeup pipe. -/
structure r_chan_t (α : Type) where
  queue : List α
  is_closed : Bool
  signalBytes : Nat
  deriving DecidableEq, Repr

/-- Return codes used by the channel operations (errno values in C). -/
inductive ChanCode where
  | ok
  | epipe
  | eagain
  | etimedout
  deriving DecidableEq, Repr

/-- Outcome of one `r_chan_send` call: the return code, the channel state
after the call, and how many queue nodes were malloc'd and free'd during
the call (the C allocates one node up front and frees it again on the
closed path). -/
structure SendResult (α : Type) where
  code : ChanCode
  chan : r_chan_t α
  nodesAllocated : Nat
  nodesFreed : Nat
  deriving Repr

/-- Embedding of `r_chan_send` (r_chan.c lines 127-176): allocate a node;
under the mutex, fail with EPIPE (freeing the node) if the channel is
closed, otherwise append at the tail and ring the doorbell pipe. -/
def r_chan_send {α : Type} (chan : r_chan_t α) (msg : α) : SendResult α :=
  if chan.is_closed then
    { code := ChanCode.epipe, chan := chan, nodesAllocated := 1, nodesFreed := 1 }
  else
    { code := ChanCode.ok,
      chan := { chan with
                  queue := chan.queue ++ [msg],
                  signalBytes := chan.signalBytes + 1 },
      nodesAllocated := 1, nodesFreed := 0 }

/-- Timeout modes of `r_chan_recv`: `R_CHAN_NO_WAIT`, `R_CHAN_NO_TIMEOUT`
and a relative timeout. -/
inductive ChanTimeout where
  | noWait
  | noTimeout
  | relative
  deriving DecidableEq, Repr

/-- Result of one `r_chan_recv` call. `blocked` models the no-timeout wait
on an empty open channel when no concurrent sender ever arrives (the C call
never returns in that situation). -/
inductive RecvOutcome (α : Type) where
  | ok (msg : α)
  | eagain
  | epipe
  | etimedout
  | blocked
  deriving DecidableEq, Repr

/-- Embedding of `r_chan_recv` (r_chan.c lines 182-227): while the queue is
empty and the channel open, NO_WAIT returns EAGAIN, a relative timeout with
no concurrent sender expires with ETIMEDOUT, and NO_TIMEOUT blocks; an
empty closed channel fails with EPIPE; otherwise the head is dequeued. -/
def r_chan_recv {α : Type} (chan : r_chan_t α) (tmo : ChanTimeout) :
    RecvOutcome α × r_chan_t α :=
  match chan.queue with
  | [] =>
    if chan.is_closed then (RecvOutcome.epipe, chan)
    else
      match tmo with
      | ChanTimeout.noWait => (RecvOutcome.eagain, chan)
      | ChanTimeout.noTimeout => (RecvOutcome.blocked, chan)
      | ChanTimeout.relative => (RecvOutcome.etimedout, chan)
  | msg :: rest => (RecvOutcome.ok msg, { chan with queue := rest })

/-- Embedding of `r_chan_close` (r_chan.c lines 108-121). -/
def r_chan_close {α : Type} (chan : r_chan_t α) : r_chan_t α :=
  { chan with is_closed := true }

/-- Fueled loop of repeated non-blocking receives: keeps calling
`r_chan_recv` with NO_WAIT and collects the received messages in order,
stopping at the first non-ok outcome. -/
def r_chan_drain_go {α : Type} : Nat → r_chan_t α → List α × r_chan_t α
  | 0, chan => ([], chan)
  | Nat.succ fuel, chan =>
    match r_chan_recv chan ChanTimeout.noWait with
    | (RecvOutcome.ok msg, chan1) =>
      let rest := r_chan_drain_go fuel chan1
      (msg :: rest.1, rest.2)
    | (RecvOutcome.eagain, chan1) => ([], chan1)
    | (RecvOutcome.epipe, chan1) => ([], chan1)
    | (RecvOutcome.etimedout, chan1) => ([], chan1)
    | (RecvOutcome.blocked, chan1) => ([], chan1)

/-- Drain a channel by repeated `try_recv` until the first failure. -/
def r_chan_drain {α : Type} (chan : r_chan_t α) : List α × r_chan_t α :=
  r_chan_drain_go chan.queue.length chan

-- =========================================================================
-- Typed results (r_udf.c lines 105-169)
-- =========================================================================

/-- The tag of `r_typed_result_t` (`r_result_type_t` in r_udf.c). -/
inductive r_result_type_t where
  | rnull
  | rbool
  | rint
  | rdouble
  | rstring
  | rraw
  | boolArray
  | intArray
  | doubleArray
  | stringArray
  | rerror
  deriving DecidableEq, Repr

/-- One element of an R double vector: the NA marker, another NaN, or a
finite value (modelled as a rational). The translated code inspects doubles
only through `ISNA(val) || ISNAN(val)` and otherwise passes them through. -/
inductive RRealElem where
  | na
  | nan
  | val (x : Rat)
  deriving DecidableEq, Repr

/-- An R runtime value of one of the SEXP types the converter in r_udf.c
handles: NULL, logical, integer, double, character or raw vectors. `none`
elements model the per-type NA markers (`NA_LOGICAL`, the `NA_INTEGER`
sentinel, `NA_STRING`). -/
inductive RValue where
  | rnull
  | lgl (xs : List (Option Bool))
  | int (xs : List (Option Int))
  | real (xs : List RRealElem)
  | str (xs : List (Option String))
  | raw (xs : List Nat)
  deriving DecidableEq, Repr

/-- Embedding of `r_typed_result_t` (r_udf.c lines 119-149) with the C
union flattened into one field per payload; `memset(res, 0, ...)` becomes
the default field values. -/
structure r_typed_result_t where
  type : r_result_type_t := r_result_type_t.rnull
  bool_val : Bool := false
  int_val : Int := 0
  double_val : Rat := 0
  string_val : String := ""
  raw_data : List Nat := []
  bool_array : List (Option Bool) := []
  int_array : List (Option Int) := []
  double_array : List RRealElem := []
  string_array : List (Option String) := []
  is_na : Bool := false
  error_msg : String := ""
  deriving DecidableEq, Repr

/-- Conversion of an evaluated R value into `r_typed_result_t`, translated
from the tail of `r_eval_typed_inner_callback` (r_udf.c lines 215-310).
For each of the four NA-capable SEXP types the C tests `Rf_length == 1`;
the three list shapes `[]`, `[x]`, `x :: y :: rest` spell that test out.
The C fall-through for SEXP types outside this enumeration (the
string-representation branch) has no counterpart because `RValue` only
carries the handled types. -/
def convertRValue : RValue → r_typed_result_t
  | RValue.rnull => { type := r_result_type_t.rnull }
  | RValue.lgl [] => { type := r_result_type_t.boolArray, bool_array := [] }
  | RValue.lgl [none] => { type := r_result_type_t.rbool, is_na := true }
  | RValue.lgl [some b] => { type := r_result_type_t.rbool, bool_val := b }
  | RValue.lgl (x :: y :: rest) =>
    { type := r_result_type_t.boolArray, bool_array := x :: y :: rest }
  | RValue.int [] => { type := r_result_type_t.intArray, int_array := [] }
  | RValue.int [none] => { type := r_result_type_t.rint, is_na := true }
  | RValue.int [some v] => { type := r_result_type_t.rint, int_val := v }
  | RValue.int (x :: y :: rest) =>
    { type := r_result_type_t.intArray, int_array := x :: y :: rest }
  | RValue.real [] => { type := r_result_type_t.doubleArray, double_array := [] }
  | RValue.real [RRealElem.na] => { type := r_result_type_t.rdouble, is_na := true }
  | RValue.real [RRealElem.nan] => { type := r_result_type_t.rdouble, is_na := true }
  | RValue.real [RRealElem.val x] =>
    { type := r_result_type_t.rdouble, double_val := x }
  | RValue.real (x :: y :: rest) =>
    { type := r_result_type_t.doubleArray, double_array := x :: y :: rest }
  | RValue.str [] => { type := r_result_type_t.stringArray, string_array := [] }
  | RValue.str [none] => { type := r_result_type_t.rstring, is_na := true }
  | RValue.str [some s] => { type := r_result_type_t.rstring, string_val := s }
  | RValue.str (x :: y :: rest) =>
    { type := r_result_type_t.stringArray, string_array := x :: y :: rest }
  | RValue.raw xs => { type := r_result_type_t.rraw, raw_data := xs }

/-- Number of elements of an R value (`Rf_length`). -/
def RValue.length : RValue → Nat
  | RValue.rnull => 0
  | RValue.lgl xs => xs.length
  | RValue.int xs => xs.length
  | RValue.real xs => xs.length
  | RValue.str xs => xs.length
  | RValue.raw xs => xs.length

/-- Whether the value belongs to one of the four SEXP types that have both
a scalar and a vector tag in `r_result_type_t`. -/
def RValue.hasVectorForm : RValue → Bool
  | RValue.lgl _ => true
  | RValue.int _ => true
  | RValue.real _ => true
  | RValue.str _ => true
  | _ => false

/-- The scalar tag corresponding to a value's SEXP type. -/
def scalarTagOf : RValue → r_result_type_t
  | RValue.lgl _ => r_result_type_t.rbool
  | RValue.int _ => r_result_type_t.rint
  | RValue.real _ => r_result_type_t.rdouble
  | RValue.str _ => r_result_type_t.rstring
  | RValue.rnull => r_result_type_t.rnull
  | RValue.raw _ => r_result_type_t.rraw

/-- The vector tag corresponding to a value's SEXP type. -/
def vectorTagOf : RValue → r_result_type_t
  | RValue.lgl _ => r_result_type_t.boolArray
  | RValue.int _ => r_result_type_t.intArray
  | RValue.real _ => r_result_type_t.doubleArray
  | RValue.str _ => r_result_type_t.stringArray
  | RValue.rnull => r_result_type_t.rnull
  | RValue.raw _ => r_result_type_t.rraw

/-- Whether the first element of the value is the native missing marker of
its type (`NA_LOGICAL`, `NA_INTEGER`, `ISNA`/`ISNAN`, `NA_STRING`). -/
def RValue.firstElemMissing : RValue → Bool
  | RValue.lgl (none :: _) => true
  | RValue.int (none :: _) => true
  | RValue.real (RRealElem.na :: _) => true
  | RValue.real (RRealElem.nan :: _) => true
  | RValue.str (none :: _) => true
  | _ => false

-- =========================================================================
-- R interpreter abstraction and execution guards (r_udf.c lines 175-417,
-- 634-655, 1380-1404)
-- =========================================================================

/-- Outcome of parsing and evaluating R code inside a callback: a parse
failure, an evaluation error reported by `R_tryEval`, or a value. The
interpreter itself is outside the repository, so this is a parameter. -/
inductive EvalOutcome where
  | parseError
  | evalError
  | ok (v : RValue)

/-- Outcome of the string-producing callback `r_eval_inner_callback`
(r_udf.c lines 323-387): parse failure, evaluation failure, or a printed
representation of the value (the C formatting of the value into text is
abstracted as the payload of `ok`). -/
inductive StrEvalOutcome where
  | parseError
  | evalError
  | ok (s : String)
  deriving DecidableEq, Repr

/-- Result buffer and error flag written by `r_eval_inner_callback`. -/
def r_eval_inner_callback : StrEvalOutcome → String × Bool
  | StrEvalOutcome.parseError => ("PARSE_ERROR", true)
  | StrEvalOutcome.evalError => ("EVAL_ERROR", true)
  | StrEvalOutcome.ok s => (s, false)

/-- Result of `R_ToplevelExec` around a callback: `aborted` is the
`success == FALSE` case (the callback exited non-locally), `completed`
carries the callback's outcome. -/
inductive Toplevel (α : Type) where
  | aborted
  | completed (out : α)

/-- Request type tag (`r_udf_request_type_t`). -/
inductive r_udf_request_type_t where
  | eval
  | shutdown
  deriving DecidableEq, Repr

/-- Embedding of `r_udf_request_t` (r_udf.c lines 73-82), keeping the
fields the dispatch logic reads and writes; the per-request mutex and
condvar are represented by the `done` flag they protect. -/
structure r_udf_request_t where
  reqType : r_udf_request_type_t
  r_code : String
  result : String
  error : Bool
  done : Bool
  deriving DecidableEq, Repr

/-- Embedding of `execute_r_eval` (r_udf.c lines 390-417): if the
re-entrance flag `g_in_r_call` is set, write `REENTRANCE_ERROR` into the
request's output slot and return with the flag unchanged; otherwise set the
flag, run the callback under `R_ToplevelExec`, write `R_TOPLEVEL_ERROR` if
it aborted, and clear the flag. Returns the flag value after the call and
the updated request. -/
def execute_r_eval (g_in_r_call : Bool) (tl : Toplevel StrEvalOutcome)
    (req : r_udf_request_t) : Bool × r_udf_request_t :=
  if g_in_r_call then
    (g_in_r_call, { req with result := "REENTRANCE_ERROR", error := true })
  else
    match tl with
    | Toplevel.aborted =>
      (false, { req with result := "R_TOPLEVEL_ERROR", error := true })
    | Toplevel.completed out =>
      let r := r_eval_inner_callback out
      (false, { req with result := r.1, error := r.2 })

/-- Embedding of the typed callback `r_eval_typed_inner_callback` (r_udf.c
lines 180-313): parse and evaluation failures become error results, a value
is converted by the tag/NA logic of lines 215-310. -/
def r_eval_typed_inner_callback : EvalOutcome → r_typed_result_t
  | EvalOutcome.parseError =>
    { type := r_result_type_t.rerror, error_msg := "Parse error" }
  | EvalOutcome.evalError =>
    { type := r_result_type_t.rerror, error_msg := "Evaluation error" }
  | EvalOutcome.ok v => convertRValue v

/-- Embedding of `execute_r_eval_typed` (r_udf.c lines 634-655): the same
guard sequence as `execute_r_eval`, producing a typed result. -/
def execute_r_eval_typed (g_in_r_call : Bool) (tl : Toplevel EvalOutcome) :
    Bool × r_typed_result_t :=
  if g_in_r_call then
    (g_in_r_call,
     { type := r_result_type_t.rerror, error_msg := "Re-entrance not allowed" })
  else
    match tl with
    | Toplevel.aborted =>
      (false, { type := r_result_type_t.rerror, error_msg := "R_ToplevelExec failed" })
    | Toplevel.completed out => (false, r_eval_typed_inner_callback out)

/-- Scenario from the spec's re-entrance test: an outer guarded call whose
runtime callback itself performs a nested guarded call. The outer call has
set `g_in_r_call`, so the nested `execute_r_eval_typed` runs with the flag
true; the outer call then finishes with its own `R_ToplevelExec` outcome
and clears the flag. Returns (outer result, nested result, final flag). -/
def nestedDuringOuter (outerTl nestedTl : Toplevel EvalOutcome) :
    r_typed_result_t × r_typed_result_t × Bool :=
  let nested := execute_r_eval_typed true nestedTl
  let outerResult :=
    match outerTl with
    | Toplevel.aborted =>
      { type := r_result_type_t.rerror, error_msg := "R_ToplevelExec failed" }
    | Toplevel.completed out => r_eval_typed_inner_callback out
  (outerResult, nested.2, false)

-- =========================================================================
-- Async dispatch (r_udf.c lines 84-99, 425-577)
-- =========================================================================

/-- The process-wide dispatch state of r_udf.c: `g_async_initialized`, the
request pointers pending in `g_request_pipe` (FIFO), and the re-entrance
flag `g_in_r_call`. -/
structure DispatchState where
  g_async_initialized : Bool
  g_request_pipe : List r_udf_request_t
  g_in_r_call : Bool
  deriving DecidableEq, Repr

/-- Embedding of `r_udf_input_handler` (r_udf.c lines 425-452): called by
R's event loop, it reads a single request pointer from the pipe, executes
it when it is an eval request (shutdown requests are only marked done), and
flips the request's `done` flag. An empty pipe is the invalid-read case and
is ignored. -/
def r_udf_input_handler (st : DispatchState) (tl : Toplevel StrEvalOutcome) :
    DispatchState × Option r_udf_request_t :=
  match st.g_request_pipe with
  | [] => (st, none)
  | req :: rest =>
    match req.reqType with
    | r_udf_request_type_t.eval =>
      let r := execute_r_eval st.g_in_r_call tl req
      ({ st with g_request_pipe := rest, g_in_r_call := r.1 },
       some { r.2 with done := true })
    | r_udf_request_type_t.shutdown =>
      ({ st with g_request_pipe := rest }, some { req with done := true })

/-- Result of the worker-side wait loop `while (!req->done)
pthread_cond_wait(&req->cond, &req->mutex);` in `r_udf_submit_async_request`
over a trace of condvar wakeups: each list element is the value of the
`done` flag observed at one wakeup. The loop finishes at the first observed
true; if the trace ends without one the caller is still blocked. `timedOut`
is never produced by this loop — the constructor exists so that statements
about a timed-out wait can be expressed. -/
inductive WaitOutcome where
  | completed
  | stillWaiting
  | timedOut
  deriving DecidableEq, Repr

/-- The wait loop of `r_udf_submit_async_request` (r_udf.c lines 520-524)
over a wakeup trace. -/
def awaitCompletion : List Bool → WaitOutcome
  | [] => WaitOutcome.stillWaiting
  | w :: ws => if w then WaitOutcome.completed else awaitCompletion ws

/-- Result of `r_udf_submit_async_request` as observed by the caller. -/
inductive SubmitOutcome where
  | errNotInitialized
  | errWriteFailed
  | ok
  | stillWaiting
  | timedOut
  deriving DecidableEq, Repr

/-- Embedding of `r_udf_submit_async_request` (r_udf.c lines 500-529):
fail with -1 when the handler is not initialized or the pipe is closed,
fail with -1 when the pointer write to the pipe fails, otherwise block in
the untimed wait loop until a wakeup observes `done`. -/
def r_udf_submit_async_request (g_async_initialized pipeOpen writeOk : Bool)
    (wakes : List Bool) : SubmitOutcome :=
  if !g_async_initialized || !pipeOpen then SubmitOutcome.errNotInitialized
  else if !writeOk then SubmitOutcome.errWriteFailed
  else
    match awaitCompletion wakes with
    | WaitOutcome.completed => SubmitOutcome.ok
    | WaitOutcome.stillWaiting => SubmitOutcome.stillWaiting
    | WaitOutcome.timedOut => SubmitOutcome.timedOut

/-- Outcome of one `r_udf_eval_string` call: either the calling thread ran
requests itself (`execLog` lists, in order, every request executed by the
dispatcher during the call), or the request was written to the pipe for the
main thread and the caller blocked in `r_udf_submit_async_request`. -/
inductive EvalStringOutcome where
  | executedDirect (req : r_udf_request_t) (execLog : List r_udf_request_t)
  | enqueued
  deriving DecidableEq, Repr

/-- Embedding of `r_udf_eval_string` (r_udf.c lines 545-577): when async is
initialized and the caller is R's main thread, execute the caller's request
directly via `execute_r_eval`; when on a worker thread, write the request
to the pipe and block; when async is not initialized, execute directly on
the calling thread. -/
def r_udf_eval_string (st : DispatchState) (onMain : Bool)
    (tl : Toplevel StrEvalOutcome) (req : r_udf_request_t) :
    DispatchState × EvalStringOutcome :=
  if st.g_async_initialized then
    if onMain then
      let r := execute_r_eval st.g_in_r_call tl req
      ({ st with g_in_r_call := r.1 }, EvalStringOutcome.executedDirect r.2 [r.2])
    else
      ({ st with g_request_pipe := st.g_request_pipe ++ [req] },
       EvalStringOutcome.enqueued)
  else
    let r := execute_r_eval st.g_in_r_call tl req
    ({ st with g_in_r_call := r.1 }, EvalStringOutcome.executedDirect r.2 [r.2])

/-- The requests executed by the dispatcher during one call. -/
def execLogOf : EvalStringOutcome → List r_udf_request_t
  | EvalStringOutcome.executedDirect _ log => log
  | EvalStringOutcome.enqueued => []

/-- Whether `a` occurs somewhere in the list strictly before some later
occurrence of `b`. -/
def occursBefore {α : Type} [DecidableEq α] : List α → α → α → Bool
  | [], _, _ => false
  | x :: xs, a, b => (x == a && xs.contains b) || occursBefore xs a b

-- =========================================================================
-- Typed table functions r_int / r_double (r_udf.c lines 673-765)
-- =========================================================================

/-- One output cell of a DuckDB vector: NULL (validity cleared), a value,
or a function-level error (`duckdb_function_set_error`). -/
inductive DuckCell (α : Type) where
  | null
  | val (x : α)
  | err (msg : String)
  deriving DecidableEq, Repr

/-- The C `(int32_t)` cast applied to a double: truncation toward zero. -/
def cDoubleToInt32 (q : Rat) : Int :=
  Int.tdiv q.num (q.den : Int)

/-- Output cell produced by `r_int_function` (r_udf.c lines 687-705) for a
typed result: errors, NULL and NA become a NULL row; integers pass through,
doubles are cast to int, booleans become 0/1; every other type becomes a
NULL row. -/
def r_int_function_cell (result : r_typed_result_t) : DuckCell Int :=
  if result.type = r_result_type_t.rerror ∨ result.type = r_result_type_t.rnull then
    DuckCell.null
  else if result.is_na then DuckCell.null
  else if result.type = r_result_type_t.rint then DuckCell.val result.int_val
  else if result.type = r_result_type_t.rdouble then
    DuckCell.val (cDoubleToInt32 result.double_val)
  else if result.type = r_result_type_t.rbool then
    DuckCell.val (if result.bool_val then 1 else 0)
  else DuckCell.null

/-- Output cell produced by `r_double_function` (r_udf.c lines 742-759):
errors, NULL and NA become a NULL row; doubles pass through, integers and
booleans are widened; every other type becomes a NULL row. -/
def r_double_function_cell (result : r_typed_result_t) : DuckCell Rat :=
  if result.type = r_result_type_t.rerror ∨ result.type = r_result_type_t.rnull then
    DuckCell.null
  else if result.is_na then DuckCell.null
  else if result.type = r_result_type_t.rdouble then DuckCell.val result.double_val
  else if result.type = r_result_type_t.rint then DuckCell.val (result.int_val : Rat)
  else if result.type = r_result_type_t.rbool then
    DuckCell.val (if result.bool_val then 1 else 0)
  else DuckCell.null

-- =========================================================================
-- rx scalar function with injected .x (r_udf.c lines 1292-1467)
-- =========================================================================

/-- Observable trace of one run of `r_eval_with_x_inner_callback`: the
typed result, whether R's parser/evaluator were invoked at all, and the
value bound to `.x` in the global environment at the moment of evaluation
(`none` when no binding was performed). -/
structure WithXRun where
  result : r_typed_result_t
  invokedRuntime : Bool
  envXAtEval : Option Rat
  deriving Repr

/-- Extraction of the rx result as a double, translated from r_udf.c lines
1344-1374: REALSXP, INTSXP and LGLSXP results of length at least one are
read off their first element with NA handling; NULL stays NULL; everything
else (including the empty vectors that fail the length test) is the
"rx requires numeric result" error. -/
def rx_extract_result : RValue → r_typed_result_t
  | RValue.rnull => { type := r_result_type_t.rnull }
  | RValue.real (RRealElem.na :: _) =>
    { type := r_result_type_t.rdouble, is_na := true }
  | RValue.real (RRealElem.nan :: _) =>
    { type := r_result_type_t.rdouble, is_na := true }
  | RValue.real (RRealElem.val x :: _) =>
    { type := r_result_type_t.rdouble, double_val := x }
  | RValue.int (none :: _) => { type := r_result_type_t.rdouble, is_na := true }
  | RValue.int (some v :: _) =>
    { type := r_result_type_t.rdouble, double_val := (v : Rat) }
  | RValue.lgl (none :: _) => { type := r_result_type_t.rdouble, is_na := true }
  | RValue.lgl (some b :: _) =>
    { type := r_result_type_t.rdouble, double_val := if b then 1 else 0 }
  | _ => { type := r_result_type_t.rerror, error_msg := "rx requires numeric result" }

/-- Embedding of `r_eval_with_x_inner_callback` (r_udf.c lines 1300-1377):
a NULL input becomes an NA double immediately, before any parsing; a
present value is first bound to `.x` in the global environment
(`Rf_defineVar`), then the code is parsed and evaluated (`runtime`, applied
to the environment in effect) and the result extracted as a double. -/
def r_eval_with_x_inner_callback (x_val : Rat) (x_is_null : Bool)
    (runtime : Option Rat → EvalOutcome) : WithXRun :=
  if x_is_null then
    { result := { type := r_result_type_t.rdouble, is_na := true },
      invokedRuntime := false, envXAtEval := none }
  else
    let env : Option Rat := some x_val
    match runtime env with
    | EvalOutcome.parseError =>
      { result := { type := r_result_type_t.rerror, error_msg := "Parse error" },
        invokedRuntime := true, envXAtEval := env }
    | EvalOutcome.evalError =>
      { result := { type := r_result_type_t.rerror, error_msg := "Evaluation error" },
        invokedRuntime := true, envXAtEval := env }
    | EvalOutcome.ok v =>
      { result := rx_extract_result v, invokedRuntime := true, envXAtEval := env }

/-- Embedding of `execute_r_eval_with_x` (r_udf.c lines 1380-1404): the
re-entrance guard, then the callback under `R_ToplevelExec` (`aborts` is
the non-local-exit case), then the flag is cleared. -/
def execute_r_eval_with_x (g_in_r_call : Bool) (x_val : Rat) (x_is_null : Bool)
    (aborts : Bool) (runtime : Option Rat → EvalOutcome) : Bool × r_typed_result_t :=
  if g_in_r_call then
    (g_in_r_call,
     { type := r_result_type_t.rerror, error_msg := "Re-entrance not allowed" })
  else if aborts then
    (false, { type := r_result_type_t.rerror, error_msg := "R_ToplevelExec failed" })
  else
    (false, (r_eval_with_x_inner_callback x_val x_is_null runtime).result)

/-- Per-row output logic of `rx_scalar_function` (r_udf.c lines 1446-1463):
a row whose `.x` input is invalid is passed as NULL (`x_is_null`), the
expression is executed under the guard, an error result aborts the whole
function with an error, NA/NULL results clear the row's validity, and a
value is written through. -/
def rx_scalar_process_row (g_in_r_call : Bool) (x : Option Rat) (aborts : Bool)
    (runtime : Option Rat → EvalOutcome) : Except String (DuckCell Rat) :=
  let er := execute_r_eval_with_x g_in_r_call (x.getD 0) x.isNone aborts runtime
  let result := er.2
  if result.type = r_result_type_t.rerror then Except.error result.error_msg
  else if result.is_na = true ∨ result.type = r_result_type_t.rnull then
    Except.ok DuckCell.null
  else Except.ok (DuckCell.val result.double_val)

-- =========================================================================
-- Concrete states used by witnesses and counterexamples
-- =========================================================================

/-- A worker request already sitting in the request pipe. -/
def wReq : r_udf_request_t :=
  { reqType := r_udf_request_type_t.eval, r_code := "wcode",
    result := "", error := false, done := false }

/-- The owner thread's own request. -/
def oReq : r_udf_request_t :=
  { reqType := r_udf_request_type_t.eval, r_code := "ocode",
    result := "", error := false, done := false }

/-- A toplevel run that completes and prints the value 42. -/
def tl42 : Toplevel StrEvalOutcome := Toplevel.completed (StrEvalOutcome.ok "42")

/-- Initialized dispatch state with one worker request queued in the pipe. -/
def stQueued : DispatchState :=
  { g_async_initialized := true, g_request_pipe := [wReq], g_in_r_call := false }

/-- Uninitialized dispatch state. -/
def stUninit : DispatchState :=
  { g_async_initialized := false, g_request_pipe := [], g_in_r_call := false }

/-- A closed channel still holding two queued items. -/
def chanClosedTwo : r_chan_t Nat := { queue := [1, 2], is_closed := true, signalBytes := 0 }

/-- A closed channel holding one item, with stale doorbell bytes. -/
def chanClosedOne : r_chan_t Nat := { queue := [5], is_closed := true, signalBytes := 3 }

-- =========================================================================
-- Helper lemmas
-- =========================================================================

/-- Repeated non-blocking receive with fuel at least the queue length
returns the whole queue in order and empties the channel. -/
theorem r_chan_drain_go_spec {α : Type} (n : Nat) :
    ∀ (chan : r_chan_t α), chan.queue.length ≤ n →
      r_chan_drain_go n chan = (chan.queue, { chan with queue := [] }) := by
  induction n with
  | zero =>
    intro chan h
    obtain ⟨q, c, s⟩ := chan
    simp only at h
    have hq : q = [] := List.eq_nil_of_length_eq_zero (Nat.le_zero.mp h)
    subst hq
    simp [r_chan_drain_go]
  | succ n ih =>
    intro chan h
    obtain ⟨q, c, s⟩ := chan
    cases q with
    | nil => cases c <;> simp [r_chan_drain_go, r_chan_recv]
    | cons m rest =>
      have hr : rest.length ≤ n := by
        simpa using Nat.le_of_succ_le_succ (by simpa using h)
      have hrec := ih ⟨rest, c, s⟩ hr
      simp [r_chan_drain_go, r_chan_recv, hrec]

/-- Draining a channel yields exactly its queued items, in order, and
leaves the emptied channel. -/
theorem r_chan_drain_spec {α : Type} (chan : r_chan_t α) :
    r_chan_drain chan = (chan.queue, { chan with queue := [] }) :=
  r_chan_drain_go_spec chan.queue.length chan (Nat.le_refl _)

/-- The worker wait loop never produces a timed-out outcome: it has no
timeout path. -/
theorem awaitCompletion_ne_timedOut (ws : List Bool) :
    awaitCompletion ws ≠ WaitOutcome.timedOut := by
  induction ws with
  | nil => simp [awaitCompletion]
  | cons w ws ih => cases w <;> simp [awaitCompletion, ih]

/-- The worker wait loop completes exactly when some wakeup observes the
done flag set. -/
theorem awaitCompletion_completed_iff (ws : List Bool) :
    awaitCompletion ws = WaitOutcome.completed ↔ true ∈ ws := by
  induction ws with
  | nil => simp [awaitCompletion]
  | cons w ws ih => cases w <;> simp [awaitCompletion, ih]

/-- A trace of wakeups that never observe the done flag leaves the worker
still blocked, however long it is. -/
theorem awaitCompletion_replicate_false (n : Nat) :
    awaitCompletion (List.replicate n false) = WaitOutcome.stillWaiting := by
  induction n with
  | zero => simp [awaitCompletion]
  | succ n ih => simp [List.replicate_succ, awaitCompletion, ih]

/-- The value branch of the wait-loop dispatch never yields the timed-out
submit outcome. -/
theorem submit_match_ne_timedOut (wakes : List Bool) :
    (match awaitCompletion wakes with
     | WaitOutcome.completed => SubmitOutcome.ok
     | WaitOutcome.stillWaiting => SubmitOutcome.stillWaiting
     | WaitOutcome.timedOut => SubmitOutcome.timedOut) ≠ SubmitOutcome.timedOut := by
  cases h : awaitCompletion wakes with
  | completed => simp
  | stillWaiting => simp
  | timedOut => exact absurd h (awaitCompletion_ne_timedOut wakes)

/-- The conversion of an R value never writes an error message. -/
theorem convertRValue_error_msg (v : RValue) : (convertRValue v).error_msg = "" := by
  cases v with
  | rnull => rfl
  | lgl xs => rcases xs with _ | ⟨_ | b, _ | ⟨y, rest⟩⟩ <;> rfl
  | int xs => rcases xs with _ | ⟨_ | v0, _ | ⟨y, rest⟩⟩ <;> rfl
  | real xs => rcases xs with _ | ⟨_ | _ | x0, _ | ⟨y, rest⟩⟩ <;> rfl
  | str xs => rcases xs with _ | ⟨_ | s0, _ | ⟨y, rest⟩⟩ <;> rfl
  | raw xs => rfl

-- =========================================================================
-- Claim theorems
-- =========================================================================

/-- C5: for every channel state, send after close fails with the
channel-closed code (EPIPE), and recv fails with the closed code only when
the queue is simultaneously empty and closed: a closed but non-empty
channel still yields all remaining queued items in FIFO order under
repeated receives before failing with EPIPE. -/
theorem c5_channel_close_semantics {α : Type} (chan : r_chan_t α) (msg : α)
    (tmo : ChanTimeout) (h : chan.is_closed = true) :
    (r_chan_send chan msg).code = ChanCode.epipe
    ∧ (r_chan_drain chan).1 = chan.queue
    ∧ (r_chan_recv (r_chan_drain chan).2 tmo).1 = RecvOutcome.epipe
    ∧ ∀ (c2 : r_chan_t α) (t2 : ChanTimeout),
        (r_chan_recv c2 t2).1 = RecvOutcome.epipe →
          c2.queue = [] ∧ c2.is_closed = true := by
  refine ⟨?_, ?_, ?_, ?_⟩
  · simp [r_chan_send, h]
  · simp [r_chan_drain_spec]
  · rw [r_chan_drain_spec]
    simp [r_chan_recv, h]
  · intro c2 t2 hrec
    obtain ⟨q, c, s⟩ := c2
    cases q with
    | nil =>
      cases c
      · cases t2 <;> simp [r_chan_recv] at hrec
      · exact ⟨rfl, rfl⟩
    | cons m rest => simp [r_chan_recv] at hrec

/-- Witness for C5: at the closed channel still holding [1, 2], send fails
with EPIPE, draining returns [1, 2], and the next recv fails with EPIPE. -/
theorem c5_channel_close_semantics_witness :
    chanClosedTwo.is_closed = true
    ∧ (r_chan_send chanClosedTwo 7).code = ChanCode.epipe
    ∧ (r_chan_drain chanClosedTwo).1 = [1, 2]
    ∧ (r_chan_recv (r_chan_drain chanClosedTwo).2 ChanTimeout.noWait).1 =
        RecvOutcome.epipe := by
  have h := c5_channel_close_semantics chanClosedTwo 7 ChanTimeout.noWait rfl
  exact ⟨rfl, h.1, h.2.1, h.2.2.1⟩

/-- C10: send on a closed channel is atomic with respect to the queue: it
returns the closed error code, the node it allocated is freed again
(allocations balance), and the whole channel state — queue, closed flag and
doorbell — is exactly as before the call. -/
theorem c10_send_closed_atomic {α : Type} (chan : r_chan_t α) (msg : α)
    (h : chan.is_closed = true) :
    (r_chan_send chan msg).code = ChanCode.epipe
    ∧ (r_chan_send chan msg).chan = chan
    ∧ (r_chan_send chan msg).nodesAllocated = (r_chan_send chan msg).nodesFreed := by
  simp [r_chan_send, h]

/-- Witness for C10 at a concrete closed channel holding one item. -/
theorem c10_send_closed_atomic_witness :
    chanClosedOne.is_closed = true
    ∧ (r_chan_send chanClosedOne 9).code = ChanCode.epipe
    ∧ (r_chan_send chanClosedOne 9).chan = chanClosedOne
    ∧ (r_chan_send chanClosedOne 9).nodesAllocated =
        (r_chan_send chanClosedOne 9).nodesFreed := by
  have h := c10_send_closed_atomic chanClosedOne 9 rfl
  exact ⟨rfl, h.1, h.2.1, h.2.2⟩

/-- On the post-write path the submit call is exactly the wait-loop
dispatch. -/
theorem submit_true_eq (wakes : List Bool) :
    r_udf_submit_async_request true true true wakes =
      (match awaitCompletion wakes with
       | WaitOutcome.completed => SubmitOutcome.ok
       | WaitOutcome.stillWaiting => SubmitOutcome.stillWaiting
       | WaitOutcome.timedOut => SubmitOutcome.timedOut) := rfl

/-- C2 counterexample: a submitted request that is never completed leaves
the worker observing ten thousand wakeups and still blocked in the untimed
wait loop; the call does not return a Timeout outcome, refuting the claimed
short-interval timed wait bounded by an overall ceiling. -/
theorem c2_counterexample :
    r_udf_submit_async_request true true true (List.replicate 10000 false) =
      SubmitOutcome.stillWaiting
    ∧ r_udf_submit_async_request true true true (List.replicate 10000 false) ≠
      SubmitOutcome.timedOut := by
  have h := awaitCompletion_replicate_false 10000
  constructor
  · rw [submit_true_eq, h]
  · rw [submit_true_eq, h]
    simp

/-- C2 (amended): submit-and-await fails up front when the handler is
uninitialized or the pipe write fails; otherwise it blocks in an untimed
condvar wait, re-checking the done flag on every wake, and completes
exactly when some wake observes the flag set. No execution returns a
Timeout outcome: the loop has no wait interval and no overall ceiling. -/
theorem c2_amended_holds (ini pipeOpen writeOk : Bool) (wakes : List Bool) :
    r_udf_submit_async_request ini pipeOpen writeOk wakes ≠ SubmitOutcome.timedOut
    ∧ (r_udf_submit_async_request true true true wakes = SubmitOutcome.ok ↔
        true ∈ wakes) := by
  have hiff := awaitCompletion_completed_iff wakes
  constructor
  · unfold r_udf_submit_async_request
    split
    · simp
    · split
      · simp
      · exact submit_match_ne_timedOut wakes
  · unfold r_udf_submit_async_request
    simp only [Bool.not_true, Bool.or_self, Bool.false_eq_true, if_false]
    cases h : awaitCompletion wakes with
    | completed => simp [hiff.mp h]
    | stillWaiting =>
      constructor
      · intro hc; exact absurd hc (by simp)
      · intro hw
        have hcontra := hiff.mpr hw
        rw [h] at hcontra
        exact WaitOutcome.noConfusion hcontra
    | timedOut => exact absurd h (awaitCompletion_ne_timedOut wakes)

/-- C1 counterexample: with one worker request already queued in the
request pipe, an owner-thread call executes only its own request: the
call's execution log is exactly the caller's completed request, no request
carrying the queued worker's code appears in the log at all (so none runs
before the caller's), and the worker request is still sitting in the pipe
after the call. This refutes the claimed drain-then-run sequence. -/
theorem c1_counterexample :
    (r_udf_eval_string stQueued true tl42 oReq).1.g_request_pipe = [wReq]
    ∧ execLogOf (r_udf_eval_string stQueued true tl42 oReq).2 =
        [{ oReq with result := "42" }]
    ∧ ((execLogOf (r_udf_eval_string stQueued true tl42 oReq).2).map
         r_udf_request_t.r_code).contains wReq.r_code = false := by
  refine ⟨rfl, rfl, ?_⟩
  decide

/-- C1 (amended): an owner-thread call with async initialized executes the
caller's own request immediately and alone — the call's execution log is
exactly the one guarded execution of the caller's request — and the request
pipe is left untouched; queued worker requests are instead executed by the
event-loop input handler, which dequeues exactly one request per callback
invocation. -/
theorem c1_amended_holds (st : DispatchState) (tl : Toplevel StrEvalOutcome)
    (req : r_udf_request_t) (h : st.g_async_initialized = true) :
    (r_udf_eval_string st true tl req).1.g_request_pipe = st.g_request_pipe
    ∧ execLogOf (r_udf_eval_string st true tl req).2 =
        [(execute_r_eval st.g_in_r_call tl req).2]
    ∧ (r_udf_input_handler st tl).1.g_request_pipe = st.g_request_pipe.drop 1 := by
  refine ⟨?_, ?_, ?_⟩
  · simp [r_udf_eval_string, h]
  · simp [r_udf_eval_string, h, execLogOf]
  · obtain ⟨ini, pipe, flag⟩ := st
    cases pipe with
    | nil => simp [r_udf_input_handler]
    | cons r rest => cases hr : r.reqType <;> simp [r_udf_input_handler, hr]

/-- Witness for C1 (amended) at the initialized state with one queued
worker request. -/
theorem c1_amended_holds_witness :
    stQueued.g_async_initialized = true
    ∧ (r_udf_eval_string stQueued true tl42 oReq).1.g_request_pipe = [wReq]
    ∧ (r_udf_input_handler stQueued tl42).1.g_request_pipe = [] := by
  have h := c1_amended_holds stQueued tl42 oReq rfl
  exact ⟨rfl, h.1.trans rfl, h.2.2.trans rfl⟩

/-- C3 counterexample: in the uninitialized state an evaluation call does
not return a NotInitialized error: it executes the request directly on the
calling thread — the runtime runs and the caller gets its successful result
with the error flag clear — and nothing is enqueued. -/
theorem c3_counterexample :
    (r_udf_eval_string stUninit true tl42 oReq).2 =
      EvalStringOutcome.executedDirect { oReq with result := "42" }
        [{ oReq with result := "42" }]
    ∧ ({ oReq with result := "42" } : r_udf_request_t).error = false
    ∧ (r_udf_eval_string stUninit true tl42 oReq).1.g_request_pipe = [] := by
  refine ⟨rfl, rfl, rfl⟩

/-- C3 (amended): a call made before `initialize()` is executed directly on
the calling thread: the caller's request runs under the guard, the request
pipe is untouched, and the eval path synthesizes no NotInitialized error;
only the worker-side submit path reports failure when uninitialized. -/
theorem c3_amended_holds (st : DispatchState) (onMain : Bool)
    (tl : Toplevel StrEvalOutcome) (req : r_udf_request_t)
    (pipeOpen writeOk : Bool) (wakes : List Bool)
    (h : st.g_async_initialized = false) :
    (r_udf_eval_string st onMain tl req).2 =
      EvalStringOutcome.executedDirect (execute_r_eval st.g_in_r_call tl req).2
        [(execute_r_eval st.g_in_r_call tl req).2]
    ∧ (r_udf_eval_string st onMain tl req).1.g_request_pipe = st.g_request_pipe
    ∧ r_udf_submit_async_request false pipeOpen writeOk wakes =
        SubmitOutcome.errNotInitialized := by
  refine ⟨?_, ?_, ?_⟩
  · simp [r_udf_eval_string, h]
  · simp [r_udf_eval_string, h]
  · simp [r_udf_submit_async_request]

/-- Witness for C3 (amended) at the uninitialized state. -/
theorem c3_amended_holds_witness :
    stUninit.g_async_initialized = false
    ∧ (r_udf_eval_string stUninit true tl42 oReq).1.g_request_pipe = []
    ∧ r_udf_submit_async_request false true true [] =
        SubmitOutcome.errNotInitialized := by
  have h := c3_amended_holds stUninit true tl42 oReq true true [] rfl
  exact ⟨rfl, h.2.1.trans rfl, h.2.2⟩

/-- C4: entering the execution guard while the re-entrance flag is set
writes the re-entrance error into the nested invocation's own output slot
and returns without consulting the runtime (the result is the same for
every toplevel outcome), leaving the flag held by the outer call; and an
outer in-flight call containing such a nested call produces exactly the
result it would have produced with no nested call. -/
theorem c4_reentrance_guard (nestedTl outerTl altTl : Toplevel EvalOutcome)
    (tlS : Toplevel StrEvalOutcome) (req : r_udf_request_t) :
    (execute_r_eval_typed true nestedTl).2 =
      { type := r_result_type_t.rerror, error_msg := "Re-entrance not allowed" }
    ∧ (execute_r_eval_typed true nestedTl).2 = (execute_r_eval_typed true altTl).2
    ∧ (execute_r_eval_typed true nestedTl).1 = true
    ∧ (execute_r_eval true tlS req).2 =
        { req with result := "REENTRANCE_ERROR", error := true }
    ∧ (nestedDuringOuter outerTl nestedTl).1 = (execute_r_eval_typed false outerTl).2 := by
  refine ⟨rfl, rfl, rfl, rfl, ?_⟩
  cases outerTl <;> rfl

/-- C6: for every runtime value of one of the four types with both a scalar
and a vector tag, the conversion picks the scalar tag exactly when the
value has exactly one element and the vector tag otherwise; a singleton
whose element is the type's native missing marker (NA logical, sentinel NA
integer, NA/NaN double, NA string) converts to a scalar result with is_na
set, not to an error. -/
theorem c6_conversion_tags (v : RValue) (hv : v.hasVectorForm = true) :
    ((convertRValue v).type = scalarTagOf v ↔ v.length = 1)
    ∧ ((convertRValue v).type = vectorTagOf v ↔ v.length ≠ 1)
    ∧ (v.length = 1 → v.firstElemMissing = true →
        (convertRValue v).is_na = true
        ∧ (convertRValue v).type = scalarTagOf v
        ∧ (convertRValue v).type ≠ r_result_type_t.rerror) := by
  cases v with
  | rnull => simp [RValue.hasVectorForm] at hv
  | raw xs => simp [RValue.hasVectorForm] at hv
  | lgl xs =>
    rcases xs with _ | ⟨_ | b, _ | ⟨y, rest⟩⟩ <;>
      simp [convertRValue, scalarTagOf, vectorTagOf, RValue.length,
        RValue.firstElemMissing]
  | int xs =>
    rcases xs with _ | ⟨_ | v0, _ | ⟨y, rest⟩⟩ <;>
      simp [convertRValue, scalarTagOf, vectorTagOf, RValue.length,
        RValue.firstElemMissing]
  | real xs =>
    rcases xs with _ | ⟨_ | _ | x0, _ | ⟨y, rest⟩⟩ <;>
      simp [convertRValue, scalarTagOf, vectorTagOf, RValue.length,
        RValue.firstElemMissing]
  | str xs =>
    rcases xs with _ | ⟨_ | s0, _ | ⟨y, rest⟩⟩ <;>
      simp [convertRValue, scalarTagOf, vectorTagOf, RValue.length,
        RValue.firstElemMissing]

/-- Witness for C6 at the singleton NaN double. -/
theorem c6_conversion_tags_witness :
    (RValue.real [RRealElem.nan]).hasVectorForm = true
    ∧ (convertRValue (RValue.real [RRealElem.nan])).is_na = true
    ∧ (convertRValue (RValue.real [RRealElem.nan])).type =
        scalarTagOf (RValue.real [RRealElem.nan]) := by
  refine ⟨by decide, ?_, ?_⟩
  · exact ((c6_conversion_tags (RValue.real [RRealElem.nan]) (by decide)).2.2
      (by decide) (by decide)).1
  · exact ((c6_conversion_tags (RValue.real [RRealElem.nan]) (by decide)).2.2
      (by decide) (by decide)).2.1

/-- C7 counterexample: under the typed entry points, a result that cannot
be losslessly coerced — a string scalar, or an integer vector — does not
produce an Error variant describing the mismatch: the output row is
silently NULL. -/
theorem c7_counterexample :
    r_int_function_cell { type := r_result_type_t.rstring, string_val := "abc" } =
      DuckCell.null
    ∧ r_int_function_cell
        { type := r_result_type_t.intArray, int_array := [some 1, some 2] } =
        DuckCell.null
    ∧ r_double_function_cell { type := r_result_type_t.rstring, string_val := "abc" } =
      DuckCell.null := by
  refine ⟨rfl, rfl, rfl⟩

/-- C7 (amended): when the result does not match the typed entry point's
expected type, the numeric coercions double→int (C truncation toward zero),
int→double and bool→number are applied; every other mismatch — string, raw,
any vector, NULL, NA or an error result — produces a NULL (invalid) output
row rather than an Error variant, and these entry points never produce a
function error at all. -/
theorem c7_amended_holds (res : r_typed_result_t) (msg : String) :
    (res.is_na = false → res.type = r_result_type_t.rint →
      r_int_function_cell res = DuckCell.val res.int_val
      ∧ r_double_function_cell res = DuckCell.val (res.int_val : Rat))
    ∧ (res.is_na = false → res.type = r_result_type_t.rdouble →
      r_int_function_cell res = DuckCell.val (cDoubleToInt32 res.double_val)
      ∧ r_double_function_cell res = DuckCell.val res.double_val)
    ∧ (res.is_na = false → res.type = r_result_type_t.rbool →
      r_int_function_cell res = DuckCell.val (if res.bool_val then 1 else 0)
      ∧ r_double_function_cell res = DuckCell.val (if res.bool_val then 1 else 0))
    ∧ ((res.type = r_result_type_t.rstring ∨ res.type = r_result_type_t.rraw
        ∨ res.type = r_result_type_t.boolArray ∨ res.type = r_result_type_t.intArray
        ∨ res.type = r_result_type_t.doubleArray
        ∨ res.type = r_result_type_t.stringArray
        ∨ res.type = r_result_type_t.rnull ∨ res.type = r_result_type_t.rerror) →
      r_int_function_cell res = DuckCell.null
      ∧ r_double_function_cell res = DuckCell.null)
    ∧ (res.is_na = true →
      r_int_function_cell res = DuckCell.null
      ∧ r_double_function_cell res = DuckCell.null)
    ∧ r_int_function_cell res ≠ DuckCell.err msg
    ∧ r_double_function_cell res ≠ DuckCell.err msg := by
  obtain ⟨t, bv, iv, dv, sv, rd, ba, ia, da, sa, na, em⟩ := res
  cases t <;> cases na <;>
    simp [r_int_function_cell, r_double_function_cell]

/-- Witness for C7 (amended): a string-typed result yields a NULL row. -/
theorem c7_amended_holds_witness :
    ({ type := r_result_type_t.rstring, string_val := "abc" } :
        r_typed_result_t).type = r_result_type_t.rstring
    ∧ r_int_function_cell { type := r_result_type_t.rstring, string_val := "abc" } =
        DuckCell.null := by
  refine ⟨rfl, ?_⟩
  exact ((c7_amended_holds
    { type := r_result_type_t.rstring, string_val := "abc" } "m").2.2.2.1
    (Or.inl rfl)).1

/-- C8: a call with the missing (NULL) injected value yields an NA double
result without ever invoking the runtime's parser or evaluator, and at the
scalar function's row level an invalid `.x` input row becomes a NULL output
row; a call with a present value binds it to the reserved name `.x` in the
global environment before the expression is evaluated. -/
theorem c8_scalar_injection (x : Rat) (runtime : Option Rat → EvalOutcome) :
    (r_eval_with_x_inner_callback x true runtime).result.is_na = true
    ∧ (r_eval_with_x_inner_callback x true runtime).result.type =
        r_result_type_t.rdouble
    ∧ (r_eval_with_x_inner_callback x true runtime).invokedRuntime = false
    ∧ rx_scalar_process_row false none false runtime = Except.ok DuckCell.null
    ∧ (r_eval_with_x_inner_callback x false runtime).invokedRuntime = true
    ∧ (r_eval_with_x_inner_callback x false runtime).envXAtEval = some x := by
  refine ⟨rfl, rfl, rfl, rfl, ?_, ?_⟩
  · cases hc : runtime (some x) <;>
      simp [r_eval_with_x_inner_callback, hc]
  · cases hc : runtime (some x) <;>
      simp [r_eval_with_x_inner_callback, hc]

/-- C9: each of the three execution guards, entered with the re-entrance
flag clear, leaves the flag clear on every return path, including the one
where `R_ToplevelExec` reports a non-local exit; consequently a subsequent
guarded call is never spuriously rejected with the re-entrance error. -/
theorem c9_flag_restored (tlS : Toplevel StrEvalOutcome)
    (tlT tlT2 : Toplevel EvalOutcome) (req : r_udf_request_t) (x : Rat)
    (xnull aborts : Bool) (rt : Option Rat → EvalOutcome) :
    (execute_r_eval false tlS req).1 = false
    ∧ (execute_r_eval_typed false tlT).1 = false
    ∧ (execute_r_eval_with_x false x xnull aborts rt).1 = false
    ∧ (execute_r_eval_typed (execute_r_eval_typed false tlT).1 tlT2).2 ≠
        { type := r_result_type_t.rerror, error_msg := "Re-entrance not allowed" } := by
  refine ⟨?_, ?_, ?_, ?_⟩
  · cases tlS <;> rfl
  · cases tlT <;> rfl
  · cases aborts <;> rfl
  · have h1 : (execute_r_eval_typed false tlT).1 = false := by cases tlT <;> rfl
    rw [h1]
    cases tlT2 with
    | aborted =>
      show ({ type := r_result_type_t.rerror, error_msg := "R_ToplevelExec failed" } :
        r_typed_result_t) ≠ _
      decide
    | completed o =>
      cases o with
      | parseError =>
        show ({ type := r_result_type_t.rerror, error_msg := "Parse error" } :
          r_typed_result_t) ≠ _
        decide
      | evalError =>
        show ({ type := r_result_type_t.rerror, error_msg := "Evaluation error" } :
          r_typed_result_t) ≠ _
        decide
      | ok v =>
        show convertRValue v ≠ _
        intro heq
        have hmsg := congrArg r_typed_result_t.error_msg heq
        rw [convertRValue_error_msg] at hmsg
        exact absurd hmsg (by decide)
